import Mathlib

/-!
Verification of the pypowerwall proxy server and TEDAPI client core against
its natural-language specification.  The definitions below are a shallow
embedding of the relevant program logic:

* `proxy/server.py` — the HTTP front door: the `do_GET` dispatch chain, the
  negative-solar display adjustment on `/aggregates` and `/csv`, and the
  `do_POST` control-command handler.
* the TEDAPI client (document cache, rate-governor cooldown, fetch functions,
  derivation functions) — the module itself is not part of the provided
  sources (only its unit tests are), so those definitions are modelled from
  the specification and its test fixtures; each such definition is marked
  `Modelled from the spec:` in its doc comment.

JSON-like trees are modelled by `JsonVal`; Python dictionaries are
association lists preserving insertion order, matching Python dict semantics
for lookup and assignment.  Numeric fields and timestamps are modelled as
exact integers (every quantity appearing in the specification and test
fixtures is a whole number of watts, watt-hours or seconds, and the code
performs only exact arithmetic on them); the one true division in the code,
the battery percentage, is carried out over `Rat`.
-/

/-- JSON-like value tree, as handled by the Python code (dicts, lists,
numbers, strings, booleans, None). -/
inductive JsonVal : Type where
  | null : JsonVal
  | bool : Bool → JsonVal
  | num : Int → JsonVal
  | str : String → JsonVal
  | arr : List JsonVal → JsonVal
  | obj : List (String × JsonVal) → JsonVal

namespace Assoc

/-- Lookup in an association list, first binding wins (Python `d[k]` /
`k in d`). -/
def find {α : Type} : List (String × α) → String → Option α
  | [], _ => none
  | (k', v) :: rest, k => if k' = k then some v else find rest k

/-- Update (or append) a binding, preserving order (Python `d[k] = v`). -/
def set {α : Type} : List (String × α) → String → α → List (String × α)
  | [], k, v => [(k, v)]
  | (k', v') :: rest, k, v =>
      if k' = k then (k', v) :: rest else (k', v') :: set rest k v

end Assoc

namespace JsonVal

/-- Python `k in d` / `d[k]` on a JSON value: only dicts have keys. -/
def getKey : JsonVal → String → Option JsonVal
  | obj kvs, k => Assoc.find kvs k
  | _, _ => none

/-- Python `d[k] = v` on a JSON value (no-op on non-dicts, which the source
never does under its guards). -/
def setKey : JsonVal → String → JsonVal → JsonVal
  | obj kvs, k, v => obj (Assoc.set kvs k v)
  | j, _, _ => j

/-- Python truthiness of a JSON value (`if solar and ...`). -/
def truthy : JsonVal → Bool
  | null => false
  | bool b => b
  | num q => q != 0
  | str s => s != ""
  | arr xs => !xs.isEmpty
  | obj kvs => !kvs.isEmpty

end JsonVal

/-- Python `x < 0` on an optional JSON field, true exactly when the field
holds a number strictly below zero — the guard under which the server takes
the adjustment branch. -/
def jsonNegNum : Option JsonVal → Bool
  | some (JsonVal.num q) => q < 0
  | _ => false

/-- Numeric content of an optional JSON field (the server only subtracts
fields it has just guarded to exist; a non-numeric field would raise in
Python and never occurs in the inputs considered here). -/
def jsonNumOf : Option JsonVal → Int
  | some (JsonVal.num q) => q
  | _ => 0

/-- Embedding of the negative-solar display adjustment applied by
`Handler.do_GET` on `/aggregates` and `/api/meters/aggregates`
(`proxy/server.py` lines 402–411).  Mirrors the source exactly, including
that `solar['instant_power']` is set to `0` *before* it is subtracted from
`aggregates['load']['instant_power']` (Python aliasing: `solar` is the same
dict object as `aggregates['solar']`). -/
def adjustAggregates (negSolar : Bool) (aggregates : Option JsonVal) : Option JsonVal :=
  match aggregates with
  | none => none
  | some ag =>
    if !negSolar && ag.truthy && (ag.getKey "solar").isSome then
      let solar := (ag.getKey "solar").getD JsonVal.null
      if solar.truthy && (solar.getKey "instant_power").isSome &&
          jsonNegNum (solar.getKey "instant_power") then
        let solar1 := solar.setKey "instant_power" (JsonVal.num 0)
        let ag1 := ag.setKey "solar" solar1
        if (ag1.getKey "load").isSome &&
            (((ag1.getKey "load").getD JsonVal.null).getKey "instant_power").isSome then
          let load := (ag1.getKey "load").getD JsonVal.null
          let lp := jsonNumOf (load.getKey "instant_power")
          let sp := jsonNumOf (solar1.getKey "instant_power")
          some (ag1.setKey "load" (load.setKey "instant_power" (JsonVal.num (lp - sp))))
        else some ag1
      else some ag
    else some ag

/-- Embedding of the `/csv` branch's negative-solar adjustment
(`proxy/server.py` lines 430–438): `solar` is zeroed first and the zeroed
value is then subtracted from `home`.  Returns the (solar, home) pair used
to build the CSV line. -/
def csvAdjust (negSolar : Bool) (solar home : Int) : Int × Int :=
  if !negSolar && decide (solar < 0) then
    let solar1 : Int := 0
    (solar1, home - solar1)
  else (solar, home)

/-- Python `s.startswith(pat)` on the underlying character lists (pattern
first). -/
def strStarts : List Char → List Char → Bool
  | [], _ => true
  | _ :: _, [] => false
  | c :: cs, d :: ds => c = d && strStarts cs ds

/-- Python `pat in s` (substring containment) on character lists. -/
def strHasSub (pat : List Char) : List Char → Bool
  | [] => pat.isEmpty
  | c :: rest => strStarts pat (c :: rest) || strHasSub pat rest

/-- Python `pat in s` on strings, as used by `do_POST` to pick the HTTP
status from the response body. -/
def containsSub (s pat : String) : Bool := strHasSub pat.data s.data

/-- Python `s.startswith(pat)` on strings. -/
def startsWithPath (s pat : String) : Bool := strStarts pat.data s.data

/-- Python `s in l` for the ALLOWLIST/DISABLED membership tests. -/
def listHas (l : List String) (x : String) : Bool := l.any (fun y => y = x)

/-- The `ALLOWLIST` set of `proxy/server.py` (lines 61–88): API paths the
proxy forwards to the Powerwall. -/
def ALLOWLIST : List String :=
  ["/api/status",
   "/api/site_info/site_name",
   "/api/meters/site",
   "/api/meters/solar",
   "/api/sitemaster",
   "/api/powerwalls",
   "/api/customer/registration",
   "/api/system_status",
   "/api/system_status/grid_status",
   "/api/system/update/status",
   "/api/site_info",
   "/api/system_status/grid_faults",
   "/api/operation",
   "/api/site_info/grid_codes",
   "/api/solars",
   "/api/solars/brands",
   "/api/customer",
   "/api/meters",
   "/api/installer",
   "/api/networks",
   "/api/system/networks",
   "/api/meters/readings",
   "/api/synchrometer/ct_voltage_references",
   "/api/troubleshooting/problems",
   "/api/auth/toggle/supported",
   "/api/solar_powerwall"]

/-- The `DISABLED` set of `proxy/server.py` (lines 90–92). -/
def DISABLED : List String := ["/api/customer/registration"]

/-- The branch of the `Handler.do_GET` if/elif chain a request path lands
in.  One constructor per `elif` arm of `proxy/server.py` lines 402–743, in
source order. -/
inductive GetBranch : Type where
  | aggregates | soe | soeScaled | gridStatus | csv | vitals | stringsData
  | stats | statsClear | temps | tempsPw | alerts | alertsPw | freq | pod
  | versionInfo | help | problems | tedapi | cloudApi | fleetapi
  | disabledApi | allowProxy | controlReserve | controlMode | web
  deriving DecidableEq

/-- Embedding of the `Handler.do_GET` dispatch chain of `proxy/server.py`:
each test is evaluated in the order the `elif` arms appear in the source,
so an earlier arm shadows every later one. -/
def routeGet (path : String) : GetBranch :=
  if path = "/aggregates" ∨ path = "/api/meters/aggregates" then .aggregates
  else if path = "/soe" then .soe
  else if path = "/api/system_status/soe" then .soeScaled
  else if path = "/api/system_status/grid_status" then .gridStatus
  else if path = "/csv" then .csv
  else if path = "/vitals" then .vitals
  else if path = "/strings" then .stringsData
  else if path = "/stats" then .stats
  else if path = "/stats/clear" then .statsClear
  else if path = "/temps" then .temps
  else if path = "/temps/pw" then .tempsPw
  else if path = "/alerts" then .alerts
  else if path = "/alerts/pw" then .alertsPw
  else if path = "/freq" then .freq
  else if path = "/pod" then .pod
  else if path = "/version" then .versionInfo
  else if path = "/help" then .help
  else if path = "/api/troubleshooting/problems" then .problems
  else if startsWithPath path "/tedapi" then .tedapi
  else if startsWithPath path "/cloud" then .cloudApi
  else if startsWithPath path "/fleetapi" then .fleetapi
  else if listHas DISABLED path then .disabledApi
  else if listHas ALLOWLIST path then .allowProxy
  else if startsWithPath path "/control/reserve" then .controlReserve
  else if startsWithPath path "/control/mode" then .controlMode
  else .web

/-- The response body of the DISABLED arm (`proxy/server.py` line 714). -/
def disabledApiBody : String := "\x7b\"status\": \"404 Response - API Disabled\"\x7d"

/-- The statically known response body of a `do_GET` branch, where one
exists; branches that poll the device or render dynamic data have none. -/
def staticGetBody : GetBranch → Option String
  | GetBranch.disabledApi => some disabledApiBody
  | GetBranch.problems => some "\x7b\"problems\": []\x7d"
  | _ => none

/-- A parsed `/control` POST request: the action segment of the path and
the `value`/`token` form fields (`proxy/server.py` lines 345–349). -/
structure ControlReq where
  action : String
  value : String
  token : String

/-- Outcome of the `try` block parsing a control POST: either a parsed
request or an exception (caught at line 350). -/
inductive ParseOutcome : Type where
  | ok : ControlReq → ParseOutcome
  | failed : ParseOutcome

/-- A call made on the `pw_control` client while handling a POST. -/
inductive Cmd : Type where
  | getReserve : Cmd
  | setReserve : Int → Cmd
  | getMode : Cmd
  | setMode : String → Cmd
  deriving DecidableEq

/-- Environment of the control handler: whether the cloud client is
connected (`pw_control.client is not None`) and the strings the
`pw_control` calls would render into the response. -/
structure ControlEnv where
  clientConnected : Bool
  reserveStr : String
  modeStr : String
  setReserveMsg : String
  setModeMsg : String

def disabledMsg : String :=
  "\x7b\"error\": \"Control Commands Disabled - Set PW_CONTROL_SECRET to enable\"\x7d"

def parseErrMsg : String := "\x7b\"error\": \"Control Command Error: Invalid Request\"\x7d"

def connectErrMsg : String :=
  "\x7b\"error\": \"Control Command Error: Unable to connect to cloud mode - Run Setup\"\x7d"

def unauthorizedMsg : String := "\x7b\"unauthorized\": \"Control Command Token Invalid\"\x7d"

def invalidActionMsg : String := "\x7b\"error\": \"Invalid Command Action\"\x7d"

def invalidValueMsg : String := "\x7b\"error\": \"Control Command Value Invalid\"\x7d"

def invalidRequestMsg : String := "\x7b\"error\": \"Invalid Request\"\x7d"

/-- Python `value.isdigit()`. -/
def valueIsDigit (v : String) : Bool := v != "" && v.data.all (fun c => c.isDigit)

def reserveMsg (r : String) : String := "\x7b\"reserve\": " ++ r ++ "\x7d"

def modeMsg (m : String) : String := "\x7b\"mode\": \"" ++ m ++ "\"\x7d"

/-- Embedding of the `/control` arm of `Handler.do_POST`
(`proxy/server.py` lines 340–382).  Returns the response body together
with the list of `pw_control` calls made. -/
def controlDispatch (controlSecret : String) (parse : ParseOutcome)
    (env : ControlEnv) : String × List Cmd :=
  if controlSecret = "" then (disabledMsg, [])
  else
    match parse with
    | ParseOutcome.failed => (parseErrMsg, [])
    | ParseOutcome.ok req =>
      if !env.clientConnected then (connectErrMsg, [])
      else if req.token = controlSecret then
        if req.action = "reserve" then
          if req.value = "" then (reserveMsg env.reserveStr, [Cmd.getReserve])
          else if valueIsDigit req.value then
            (env.setReserveMsg, [Cmd.setReserve (Int.ofNat ((req.value.toNat?).getD 0))])
          else (invalidValueMsg, [])
        else if req.action = "mode" then
          if req.value = "" then (modeMsg env.modeStr, [Cmd.getMode])
          else if req.value = "self_consumption" || req.value = "backup" ||
              req.value = "autonomous" then
            (env.setModeMsg, [Cmd.setMode req.value])
          else (invalidValueMsg, [])
        else (invalidActionMsg, [])
      else (unauthorizedMsg, [])

/-- Embedding of `Handler.do_POST` (`proxy/server.py` lines 333–395):
`/control/...` paths go to the control handler, everything else answers
with the generic invalid-request error. -/
def do_POST (path : String) (controlSecret : String) (parse : ParseOutcome)
    (env : ControlEnv) : String × List Cmd :=
  if startsWithPath path "/control" then controlDispatch controlSecret parse env
  else (invalidRequestMsg, [])

/-- The HTTP status `do_POST` sends, chosen by substring checks on the
response body (`proxy/server.py` lines 383–390). -/
def postStatus (message : String) : Nat :=
  if containsSub message "error" then 400
  else if containsSub message "unauthorized" then 401
  else 200

/-- The aggregates document of the failing input: solar producing −100 W,
load at 500 W. -/
def negSolarInput : JsonVal :=
  JsonVal.obj
    [("solar", JsonVal.obj [("instant_power", JsonVal.num (-100))]),
     ("load", JsonVal.obj [("instant_power", JsonVal.num 500)])]

/-- Modelled from the spec: the mutable state of the TEDAPI client class
(`pypowerwall/tedapi/__init__.py` is absent from the provided sources; its
unit tests construct instances carrying exactly these attributes): the
resolved device identity `din`, the hardware-generation capability flag
`pw3`, the rate-governor cooldown instant, the per-key document cache with
its fetch timestamps, and the two cache TTLs (telemetry and config). -/
structure TEDAPIState : Type where
  din : Option String
  pw3 : Bool
  pwcooldown : Int
  pwcache : List (String × JsonVal)
  pwcachetime : List (String × Int)
  pwcacheexpire : Int
  pwconfigexpire : Int

/-- Modelled from the spec: a document is fresh iff `now - fetchedAt <
ttl(key)`; an absent timestamp is never fresh. -/
def cacheFresh (s : TEDAPIState) (key : String) (ttl : Int) (now : Int) : Bool :=
  match Assoc.find s.pwcachetime key with
  | some t => now - t < ttl
  | none => false

/-- Modelled from the spec: `put(key, v)` of the Document Cache — commit a
value under a key with the current timestamp. -/
def cachePut (s : TEDAPIState) (key : String) (v : JsonVal) (now : Int) : TEDAPIState :=
  { s with pwcache := Assoc.set s.pwcache key v,
           pwcachetime := Assoc.set s.pwcachetime key now }

/-- Result of one fetch operation: the returned value, the successor
client state, and whether a device request was issued. -/
structure FetchResult : Type where
  value : Option JsonVal
  state : TEDAPIState
  requested : Bool

/-- Modelled from the spec: what the device would answer to a payload POST
(config/status): HTTP 200 whose extracted text payload either parses as
structured data (`ok (some j)`) or fails to parse (`ok none`), a
rate-limit status, or a timeout/connection error. -/
inductive DevResp : Type where
  | ok : Option JsonVal → DevResp
  | rateLimited : DevResp
  | netError : DevResp

/-- Modelled from the spec: what the device would answer to the identity
GET: 200 with the DIN text, rate-limit, auth-forbidden, or a network
error. -/
inductive DinResp : Type where
  | ok : String → DinResp
  | rateLimited : DinResp
  | forbidden : DinResp
  | netError : DinResp

/-- Modelled from the spec: outcome of the handshake probe to the device
root: 200, 403/Forbidden (second hardware generation), or a network
failure. -/
inductive ProbeResp : Type where
  | ok200 : ProbeResp
  | forbidden : ProbeResp
  | failed : ProbeResp

/-- Modelled from the spec: `get_din` of the absent TEDAPI module — serve
a fresh cached DIN without I/O; otherwise, if the rate-governor cooldown
instant is still in the future, return null without I/O; otherwise issue
the device request: on 200 cache and return the DIN text, on rate-limit
trip the governor (a fixed 5-minute window) and return null, on 403 or a
network error return null with no state change. -/
def get_din (s : TEDAPIState) (now : Int) (resp : DinResp) : FetchResult :=
  if cacheFresh s "din" s.pwcacheexpire now then
    { value := Assoc.find s.pwcache "din", state := s, requested := false }
  else if now < s.pwcooldown then
    { value := none, state := s, requested := false }
  else
    match resp with
    | DinResp.ok text =>
        { value := some (JsonVal.str text),
          state := { cachePut s "din" (JsonVal.str text) now with din := some text },
          requested := true }
    | DinResp.rateLimited =>
        { value := none, state := { s with pwcooldown := now + 300 }, requested := true }
    | DinResp.forbidden => { value := none, state := s, requested := true }
    | DinResp.netError => { value := none, state := s, requested := true }

/-- Modelled from the spec: `get_config` of the absent TEDAPI module —
cache hit within the config TTL returns the cached document without I/O;
an active cooldown returns null without I/O; an unresolved identity
returns null; otherwise the fetch commits a parsed payload to the cache,
returns an empty structured result on a decode failure leaving the cache
untouched, trips the governor on rate-limit, and returns null on a
network error. -/
def get_config (s : TEDAPIState) (now : Int) (resp : DevResp) : FetchResult :=
  if cacheFresh s "config" s.pwconfigexpire now then
    { value := Assoc.find s.pwcache "config", state := s, requested := false }
  else if now < s.pwcooldown then
    { value := none, state := s, requested := false }
  else
    match s.din with
    | none => { value := none, state := s, requested := false }
    | some _ =>
      match resp with
      | DevResp.ok (some payload) =>
          { value := some payload, state := cachePut s "config" payload now,
            requested := true }
      | DevResp.ok none =>
          { value := some (JsonVal.obj []), state := s, requested := true }
      | DevResp.rateLimited =>
          { value := none, state := { s with pwcooldown := now + 300 }, requested := true }
      | DevResp.netError => { value := none, state := s, requested := true }

/-- Modelled from the spec: `get_status` of the absent TEDAPI module —
identical shape to `get_config` but keyed on the telemetry TTL. -/
def get_status (s : TEDAPIState) (now : Int) (resp : DevResp) : FetchResult :=
  if cacheFresh s "status" s.pwcacheexpire now then
    { value := Assoc.find s.pwcache "status", state := s, requested := false }
  else if now < s.pwcooldown then
    { value := none, state := s, requested := false }
  else
    match s.din with
    | none => { value := none, state := s, requested := false }
    | some _ =>
      match resp with
      | DevResp.ok (some payload) =>
          { value := some payload, state := cachePut s "status" payload now,
            requested := true }
      | DevResp.ok none =>
          { value := some (JsonVal.obj []), state := s, requested := true }
      | DevResp.rateLimited =>
          { value := none, state := { s with pwcooldown := now + 300 }, requested := true }
      | DevResp.netError => { value := none, state := s, requested := true }

/-- Modelled from the spec: `connect` of the absent TEDAPI module — an
already-resolved identity is served as is; otherwise probe the device
root: a network failure leaves identity unresolved, a 403/Forbidden probe
records the second-hardware-generation capability flag (`pw3`), and in
either non-failure case the client proceeds to resolve identity via the
secondary request (whose outcome is `dinRes`). -/
def connect (s : TEDAPIState) (probe : ProbeResp) (dinRes : Option String) :
    Option String × TEDAPIState :=
  match s.din with
  | some d => (some d, s)
  | none =>
    match probe with
    | ProbeResp.failed => (none, s)
    | ProbeResp.forbidden => (dinRes, { s with pw3 := true, din := dinRes })
    | ProbeResp.ok200 => (dinRes, { s with din := dinRes })

/-- Modelled from the spec: the `lookup` helper of the absent TEDAPI
module — a safe path lookup over a JSON tree that returns null, never an
error, when an intermediate node is absent or not a dict. -/
def lookup (d : JsonVal) (keylist : List String) : Option JsonVal :=
  match keylist with
  | [] => some d
  | k :: ks =>
    match d with
    | JsonVal.obj kvs =>
      match Assoc.find kvs k with
      | some v => lookup v ks
      | none => none
    | _ => none

/-- The path a JSON tree addresses: `Addresses d ks w` holds iff following
the keys `ks` from `d` through dict nodes reaches `w`. -/
inductive Addresses : JsonVal → List String → JsonVal → Prop where
  | nil (v : JsonVal) : Addresses v [] v
  | step (kvs : List (String × JsonVal)) (k : String) (ks : List String)
      (v w : JsonVal) : Assoc.find kvs k = some v → Addresses v ks w →
      Addresses (JsonVal.obj kvs) (k :: ks) w

/-- Modelled from the spec: `battery_level` of the absent TEDAPI module —
`remainingEnergy / fullPackEnergy * 100` over the status document's nested
energy totals, null if either operand is missing or full-pack energy is
zero. -/
def battery_level (status : JsonVal) : Option Rat :=
  match lookup status ["control", "systemStatus", "nominalEnergyRemainingWh"] with
  | some (JsonVal.num remaining) =>
    match lookup status ["control", "systemStatus", "nominalFullPackEnergyWh"] with
    | some (JsonVal.num fullPack) =>
        if fullPack = 0 then none
        else some ((remaining : Rat) / (fullPack : Rat) * 100)
    | _ => none
  | _ => none

/-- Modelled from the spec: `current_power` of the absent TEDAPI module —
real power at a named meter location within the status document's
meter-aggregate list, or, with no location given, the full
location-to-power mapping. -/
def current_power (status : JsonVal) (location : Option String) : Option JsonVal :=
  match lookup status ["control", "meterAggregates"] with
  | some (JsonVal.arr entries) =>
    match location with
    | some loc =>
        entries.findSome? (fun e =>
          match e.getKey "location" with
          | some (JsonVal.str l) => if l = loc then e.getKey "realPowerW" else none
          | _ => none)
    | none =>
        some (JsonVal.obj (entries.filterMap (fun e =>
          match e.getKey "location", e.getKey "realPowerW" with
          | some (JsonVal.str l), some p => some (l, p)
          | _, _ => none)))
  | _ => none

/-- A client state whose rate governor tripped until instant 300, with an
empty cache — the construction of the cooldown test. -/
def cooldownState : TEDAPIState :=
  { din := some "TEST_DIN", pw3 := false, pwcooldown := 300,
    pwcache := [], pwcachetime := [], pwcacheexpire := 5, pwconfigexpire := 5 }

/-- A connected client state with an empty cache and an elapsed cooldown. -/
def readyState : TEDAPIState :=
  { din := some "TEST_DIN", pw3 := false, pwcooldown := 0,
    pwcache := [], pwcachetime := [], pwcacheexpire := 5, pwconfigexpire := 5 }

/-- An unconnected client state (no identity, flag clear). -/
def freshClientState : TEDAPIState :=
  { din := none, pw3 := false, pwcooldown := 0,
    pwcache := [], pwcachetime := [], pwcacheexpire := 5, pwconfigexpire := 5 }

/-- The status document of the battery-level test fixture:
remaining = 10000 Wh, full pack = 13500 Wh. -/
def batteryStatusDoc : JsonVal :=
  JsonVal.obj
    [("control", JsonVal.obj
      [("systemStatus", JsonVal.obj
        [("nominalEnergyRemainingWh", JsonVal.num 10000),
         ("nominalFullPackEnergyWh", JsonVal.num 13500)])])]

/-- The status document of the current-power test fixture: meter
aggregates LOAD = 1500 W, SOLAR = 3000 W, BATTERY = −500 W. -/
def meterStatusDoc : JsonVal :=
  JsonVal.obj
    [("control", JsonVal.obj
      [("meterAggregates", JsonVal.arr
        [JsonVal.obj [("location", JsonVal.str "LOAD"), ("realPowerW", JsonVal.num 1500)],
         JsonVal.obj [("location", JsonVal.str "SOLAR"), ("realPowerW", JsonVal.num 3000)],
         JsonVal.obj [("location", JsonVal.str "BATTERY"), ("realPowerW", JsonVal.num (-500))]])])]

theorem Assoc.find_set {α : Type} (a : List (String × α)) (k : String) (v : α) :
    Assoc.find (Assoc.set a k v) k = some v := by
  induction a with
  | nil => simp [Assoc.find, Assoc.set]
  | cons hd tl ih =>
    by_cases h : hd.1 = k
    · simp [Assoc.find, Assoc.set, h]
    · simp [Assoc.find, Assoc.set, h, ih]

/-- Claim C1: with the negative-solar display option disabled and a polled
solar `instant_power` strictly below zero, the code zeroes solar but does
NOT add the magnitude of the original negative value to load: it subtracts
the already-zeroed solar value, leaving load unchanged (here 500 rather
than the claimed 600).  The `/csv` branch behaves the same way.  This
theorem evaluates the embedded code at the failing input. -/
theorem c1_neg_solar_shift_bug :
    adjustAggregates false (some negSolarInput) =
      some (JsonVal.obj
        [("solar", JsonVal.obj [("instant_power", JsonVal.num 0)]),
         ("load", JsonVal.obj [("instant_power", JsonVal.num 500)])]) ∧
    csvAdjust false (-100) 500 = (0, 500) := by
  exact ⟨rfl, rfl⟩

/-- Claim C5: a `/control/...` POST without the control secret configured
yields the structured "disabled" error; with the secret configured, the
cloud client connected and a mismatched token it yields the distinct
structured "unauthorized" object; neither case invokes any `pw_control`
command.  The two bodies are distinct and map to distinct HTTP statuses
(400 vs 401), so callers can tell them apart. -/
theorem c5_control_disabled_unauthorized :
    (∀ path parse env, startsWithPath path "/control" = true →
        do_POST path "" parse env = (disabledMsg, [])) ∧
    (∀ path secret req env, startsWithPath path "/control" = true →
        secret ≠ "" → env.clientConnected = true → req.token ≠ secret →
        do_POST path secret (ParseOutcome.ok req) env = (unauthorizedMsg, [])) ∧
    disabledMsg ≠ unauthorizedMsg ∧
    postStatus disabledMsg = 400 ∧ postStatus unauthorizedMsg = 401 := by
  refine ⟨?_, ?_, by decide, by decide, by decide⟩
  · intro path parse env hstart
    simp [do_POST, hstart, controlDispatch]
  · intro path secret req env hstart hsec hconn htok
    simp [do_POST, hstart, controlDispatch, hsec, hconn, htok]

/-- Witness for C5: a concrete disabled-secret POST and a concrete
mismatched-token POST, both via the theorem. -/
theorem c5_control_witness :
    do_POST "/control/reserve" "" ParseOutcome.failed
      ⟨true, "20", "backup", "ok", "ok"⟩ = (disabledMsg, []) ∧
    do_POST "/control/mode" "secret123"
      (ParseOutcome.ok ⟨"mode", "", "badtoken"⟩)
      ⟨true, "20", "backup", "ok", "ok"⟩ = (unauthorizedMsg, []) :=
  ⟨c5_control_disabled_unauthorized.1 "/control/reserve" ParseOutcome.failed
      ⟨true, "20", "backup", "ok", "ok"⟩ (by decide),
   c5_control_disabled_unauthorized.2.1 "/control/mode" "secret123"
      ⟨"mode", "", "badtoken"⟩ ⟨true, "20", "backup", "ok", "ok"⟩
      (by decide) (by decide) rfl (by decide)⟩

/-- Claim C10: every GET whose path is in DISABLED lands in the
disabled-API arm with the '404 Response - API Disabled' body and never in
the ALLOWLIST proxy arm, although '/api/customer/registration' belongs to
both sets — the DISABLED test precedes the ALLOWLIST test in the `elif`
chain. -/
theorem c10_disabled_shadows_allowlist :
    (∀ p, listHas DISABLED p = true →
        routeGet p = GetBranch.disabledApi ∧
        routeGet p ≠ GetBranch.allowProxy ∧
        staticGetBody (routeGet p) = some disabledApiBody) ∧
    listHas DISABLED "/api/customer/registration" = true ∧
    listHas ALLOWLIST "/api/customer/registration" = true := by
  refine ⟨?_, by decide, by decide⟩
  intro p hp
  have hp' : p = "/api/customer/registration" := by
    simpa [listHas, DISABLED, eq_comm] using hp
  subst hp'
  exact ⟨by decide, by decide, by decide⟩

/-- Witness for C10: the one DISABLED path routes to the disabled arm. -/
theorem c10_disabled_witness :
    routeGet "/api/customer/registration" = GetBranch.disabledApi :=
  (c10_disabled_shadows_allowlist.1 "/api/customer/registration" (by decide)).1

/-- Claim C2: whenever the cooldown instant lies in the future, every
fetch operation (`get_din`, `get_config`, `get_status`) returns null and
issues no device request, for the entire window (arbitrary `now` before
the instant; the cache holds no fresh entry, as in the test's
construction). -/
theorem c2_cooldown_blocks_fetches (s : TEDAPIState) (now : Int)
    (dresp : DinResp) (presp : DevResp)
    (hcool : now < s.pwcooldown)
    (hdin : cacheFresh s "din" s.pwcacheexpire now = false)
    (hcfg : cacheFresh s "config" s.pwconfigexpire now = false)
    (hsts : cacheFresh s "status" s.pwcacheexpire now = false) :
    ((get_din s now dresp).value = none ∧ (get_din s now dresp).requested = false) ∧
    ((get_config s now presp).value = none ∧ (get_config s now presp).requested = false) ∧
    ((get_status s now presp).value = none ∧ (get_status s now presp).requested = false) := by
  refine ⟨?_, ?_, ?_⟩
  · simp [get_din, hdin, hcool]
  · simp [get_config, hcfg, hcool]
  · simp [get_status, hsts, hcool]

/-- Witness for C2: a state whose cooldown lies 300 s in the future, at
instant 0, blocks all three fetches. -/
theorem c2_cooldown_witness :
    ((get_din cooldownState 0 (DinResp.ok "D")).value = none ∧
      (get_din cooldownState 0 (DinResp.ok "D")).requested = false) ∧
    ((get_config cooldownState 0 (DevResp.ok (some (JsonVal.obj [])))).value = none ∧
      (get_config cooldownState 0 (DevResp.ok (some (JsonVal.obj [])))).requested = false) ∧
    ((get_status cooldownState 0 (DevResp.ok (some (JsonVal.obj [])))).value = none ∧
      (get_status cooldownState 0 (DevResp.ok (some (JsonVal.obj [])))).requested = false) :=
  c2_cooldown_blocks_fetches cooldownState 0 (DinResp.ok "D")
    (DevResp.ok (some (JsonVal.obj []))) (by decide) (by decide) (by decide) (by decide)

/-- Claim C3: a status fetch that reaches the device (no fresh cache, no
active cooldown, identity resolved) and gets an HTTP-200 response whose
payload fails to parse returns the empty structured result and leaves the
client state — in particular the previously cached status document —
unchanged. -/
theorem c3_decode_failure_empty_result (s : TEDAPIState) (now : Int)
    (hfresh : cacheFresh s "status" s.pwcacheexpire now = false)
    (hcool : ¬ now < s.pwcooldown)
    (hdin : s.din.isSome = true) :
    (get_status s now (DevResp.ok none)).value = some (JsonVal.obj []) ∧
    (get_status s now (DevResp.ok none)).state = s ∧
    Assoc.find (get_status s now (DevResp.ok none)).state.pwcache "status" =
      Assoc.find s.pwcache "status" := by
  obtain ⟨d, hd⟩ := Option.isSome_iff_exists.mp hdin
  refine ⟨?_, ?_, ?_⟩ <;> simp [get_status, hfresh, hcool, hd]

/-- Witness for C3: a connected state with an empty cache at instant 0. -/
theorem c3_decode_failure_witness :
    (get_status readyState 0 (DevResp.ok none)).value = some (JsonVal.obj []) ∧
    (get_status readyState 0 (DevResp.ok none)).state = readyState ∧
    Assoc.find (get_status readyState 0 (DevResp.ok none)).state.pwcache "status" =
      Assoc.find readyState.pwcache "status" :=
  c3_decode_failure_empty_result readyState 0 (by decide) (by decide) (by decide)

/-- Claim C4: the battery percentage is remaining/fullPack·100 over the
status document's nested energy totals — on the fixture (remaining 10000,
fullPack 13500) the result exists and lies within 0.01 of 74.07 — and it
is null whenever the remaining-energy operand is missing, the full-pack
operand is missing, or the full-pack energy is zero. -/
theorem c4_battery_level_derivation :
    (∃ r, battery_level batteryStatusDoc = some r ∧
      r - 7407 / 100 < 1 / 100 ∧ 7407 / 100 - r < 1 / 100) ∧
    (∀ st, lookup st ["control", "systemStatus", "nominalEnergyRemainingWh"] = none →
      battery_level st = none) ∧
    (∀ st, lookup st ["control", "systemStatus", "nominalFullPackEnergyWh"] = none →
      battery_level st = none) ∧
    (∀ st, lookup st ["control", "systemStatus", "nominalFullPackEnergyWh"] =
        some (JsonVal.num 0) → battery_level st = none) := by
  refine ⟨⟨((10000 : Int) : Rat) / ((13500 : Int) : Rat) * 100, rfl, ?_, ?_⟩, ?_, ?_, ?_⟩
  · push_cast
    norm_num
  · push_cast
    norm_num
  · intro st h
    simp [battery_level, h]
  · intro st h
    cases h1 : lookup st ["control", "systemStatus", "nominalEnergyRemainingWh"] with
    | none => simp [battery_level, h1]
    | some v => cases v <;> simp [battery_level, h1, h]
  · intro st h
    cases h1 : lookup st ["control", "systemStatus", "nominalEnergyRemainingWh"] with
    | none => simp [battery_level, h1]
    | some v => cases v <;> simp [battery_level, h1, h]

/-- Witness for C4: a status document with no energy totals yields null. -/
theorem c4_battery_level_witness : battery_level (JsonVal.obj []) = none :=
  c4_battery_level_derivation.2.1 (JsonVal.obj []) rfl

/-- Claim C6: the path-lookup helper is a total function (it can never
raise), it yields exactly the value the path addresses through dict
nodes, and it returns null as soon as the next key is absent or the
current node is not a dict. -/
theorem c6_lookup_characterization :
    (∀ (d : JsonVal) (ks : List String) (w : JsonVal),
      lookup d ks = some w ↔ Addresses d ks w) ∧
    (∀ (d : JsonVal) (k : String) (ks : List String),
      JsonVal.getKey d k = none → lookup d (k :: ks) = none) := by
  constructor
  · intro d ks w
    induction ks generalizing d with
    | nil =>
      constructor
      · intro h
        simp only [lookup, Option.some.injEq] at h
        subst h
        exact Addresses.nil _
      · intro h
        cases h
        rfl
    | cons k ks ih =>
      constructor
      · intro h
        cases d with
        | obj kvs =>
          cases hfind : Assoc.find kvs k with
          | none => simp [lookup, hfind] at h
          | some v =>
            simp only [lookup, hfind] at h
            exact Addresses.step kvs k ks v w hfind ((ih v).mp h)
        | null => simp [lookup] at h
        | bool b => simp [lookup] at h
        | num q => simp [lookup] at h
        | str s => simp [lookup] at h
        | arr xs => simp [lookup] at h
      · intro h
        cases h with
        | step kvs k ks v w hfind hrest =>
          simp only [lookup, hfind]
          exact (ih v).mpr hrest
  · intro d k ks h
    cases d with
    | obj kvs =>
      simp only [JsonVal.getKey] at h
      simp [lookup, h]
    | null => rfl
    | bool b => rfl
    | num q => rfl
    | str s => rfl
    | arr xs => rfl

/-- Witness for C6: a path into a missing key of a concrete tree returns
null, via the theorem. -/
theorem c6_lookup_witness : lookup (JsonVal.obj [("a", JsonVal.num 1)]) ["b"] = none :=
  c6_lookup_characterization.2 (JsonVal.obj [("a", JsonVal.num 1)]) "b" [] rfl

/-- Claim C7: on the meter fixture (LOAD 1500, SOLAR 3000, BATTERY −500),
the current-power derivation returns each named location's power, and with
no location argument the complete location-to-power mapping. -/
theorem c7_current_power_lookup :
    current_power meterStatusDoc (some "LOAD") = some (JsonVal.num 1500) ∧
    current_power meterStatusDoc (some "SOLAR") = some (JsonVal.num 3000) ∧
    current_power meterStatusDoc (some "BATTERY") = some (JsonVal.num (-500)) ∧
    current_power meterStatusDoc none =
      some (JsonVal.obj
        [("LOAD", JsonVal.num 1500), ("SOLAR", JsonVal.num 3000),
         ("BATTERY", JsonVal.num (-500))]) :=
  ⟨rfl, rfl, rfl, rfl⟩

/-- Claim C8: during the handshake, a 403/Forbidden probe sets the
persistent `pw3` capability flag and the client still resolves and
returns the identity from the secondary request, while a 200 probe leaves
the flag clear. -/
theorem c8_probe_forbidden_sets_pw3 (s : TEDAPIState) (dinRes : Option String)
    (hdin : s.din = none) :
    ((connect s ProbeResp.forbidden dinRes).1 = dinRes ∧
      (connect s ProbeResp.forbidden dinRes).2.pw3 = true) ∧
    (s.pw3 = false →
      (connect s ProbeResp.ok200 dinRes).1 = dinRes ∧
      (connect s ProbeResp.ok200 dinRes).2.pw3 = false) := by
  refine ⟨⟨?_, ?_⟩, fun hpw3 => ⟨?_, ?_⟩⟩ <;> simp [connect, hdin]
  exact hpw3

/-- Witness for C8: an unconnected client, probed as Forbidden, resolves
"TEST_DIN" and records the flag; probed as 200, the flag stays clear. -/
theorem c8_probe_witness :
    ((connect freshClientState ProbeResp.forbidden (some "TEST_DIN")).1 = some "TEST_DIN" ∧
      (connect freshClientState ProbeResp.forbidden (some "TEST_DIN")).2.pw3 = true) ∧
    ((connect freshClientState ProbeResp.ok200 (some "TEST_DIN")).1 = some "TEST_DIN" ∧
      (connect freshClientState ProbeResp.ok200 (some "TEST_DIN")).2.pw3 = false) :=
  ⟨(c8_probe_forbidden_sets_pw3 freshClientState (some "TEST_DIN") rfl).1,
   (c8_probe_forbidden_sets_pw3 freshClientState (some "TEST_DIN") rfl).2 rfl⟩

theorem get_din_fresh (s : TEDAPIState) (now : Int) (resp : DinResp)
    (h : cacheFresh s "din" s.pwcacheexpire now = true) :
    get_din s now resp =
      { value := Assoc.find s.pwcache "din", state := s, requested := false } := by
  simp [get_din, h]

theorem get_config_fresh (s : TEDAPIState) (now : Int) (resp : DevResp)
    (h : cacheFresh s "config" s.pwconfigexpire now = true) :
    get_config s now resp =
      { value := Assoc.find s.pwcache "config", state := s, requested := false } := by
  simp [get_config, h]

theorem get_status_fresh (s : TEDAPIState) (now : Int) (resp : DevResp)
    (h : cacheFresh s "status" s.pwcacheexpire now = true) :
    get_status s now resp =
      { value := Assoc.find s.pwcache "status", state := s, requested := false } := by
  simp [get_status, h]

/-- Claim C9: for every document kind, writing a value into the cache and
reading the same key within that key's TTL returns exactly the written
value and issues no device request. -/
theorem c9_cache_roundtrip (s : TEDAPIState) (v : JsonVal) (t0 t1 : Int)
    (dresp : DinResp) (presp : DevResp) :
    (t1 - t0 < s.pwcacheexpire →
      (get_din (cachePut s "din" v t0) t1 dresp).value = some v ∧
      (get_din (cachePut s "din" v t0) t1 dresp).requested = false) ∧
    (t1 - t0 < s.pwconfigexpire →
      (get_config (cachePut s "config" v t0) t1 presp).value = some v ∧
      (get_config (cachePut s "config" v t0) t1 presp).requested = false) ∧
    (t1 - t0 < s.pwcacheexpire →
      (get_status (cachePut s "status" v t0) t1 presp).value = some v ∧
      (get_status (cachePut s "status" v t0) t1 presp).requested = false) := by
  refine ⟨fun h => ?_, fun h => ?_, fun h => ?_⟩
  · have hfresh : cacheFresh (cachePut s "din" v t0) "din"
        (cachePut s "din" v t0).pwcacheexpire t1 = true := by
      simp [cacheFresh, cachePut, Assoc.find_set, h]
    rw [get_din_fresh _ _ _ hfresh]
    simp [cachePut, Assoc.find_set]
  · have hfresh : cacheFresh (cachePut s "config" v t0) "config"
        (cachePut s "config" v t0).pwconfigexpire t1 = true := by
      simp [cacheFresh, cachePut, Assoc.find_set, h]
    rw [get_config_fresh _ _ _ hfresh]
    simp [cachePut, Assoc.find_set]
  · have hfresh : cacheFresh (cachePut s "status" v t0) "status"
        (cachePut s "status" v t0).pwcacheexpire t1 = true := by
      simp [cacheFresh, cachePut, Assoc.find_set, h]
    rw [get_status_fresh _ _ _ hfresh]
    simp [cachePut, Assoc.find_set]

/-- Witness for C9: write at instant 0, read at instant 3 with TTL 5, for
each document kind. -/
theorem c9_cache_roundtrip_witness :
    ((get_din (cachePut readyState "din" (JsonVal.num 42) 0) 3 DinResp.netError).value =
        some (JsonVal.num 42) ∧
      (get_din (cachePut readyState "din" (JsonVal.num 42) 0) 3 DinResp.netError).requested =
        false) ∧
    ((get_config (cachePut readyState "config" (JsonVal.num 42) 0) 3 DevResp.netError).value =
        some (JsonVal.num 42) ∧
      (get_config (cachePut readyState "config" (JsonVal.num 42) 0) 3 DevResp.netError).requested =
        false) ∧
    ((get_status (cachePut readyState "status" (JsonVal.num 42) 0) 3 DevResp.netError).value =
        some (JsonVal.num 42) ∧
      (get_status (cachePut readyState "status" (JsonVal.num 42) 0) 3 DevResp.netError).requested =
        false) :=
  ⟨(c9_cache_roundtrip readyState (JsonVal.num 42) 0 3 DinResp.netError DevResp.netError).1
      (by decide),
   (c9_cache_roundtrip readyState (JsonVal.num 42) 0 3 DinResp.netError DevResp.netError).2.1
      (by decide),
   (c9_cache_roundtrip readyState (JsonVal.num 42) 0 3 DinResp.netError DevResp.netError).2.2
      (by decide)⟩
